import Mathlib

/- Shallow embedding of src/flaskstarter/model.py: the order data model and the four
   core operations (add_order, get_order, put_order_shipping_information,
   put_order_credit_card).  Persistent tables are association lists keyed by primary
   key, decimal amounts are rationals, and Python exceptions are the Err type.  The
   pure tax and shipping-cost lookups (utils/taxes) and the external charging gateway
   (services/external/chargingapi) live outside src and are taken as parameters. -/

namespace FlaskStarter

/-- Row fetch by primary key in an association-list table. -/
def lookupTbl {κ α : Type} [DecidableEq κ] : List (κ × α) → κ → Option α
  | [], _ => none
  | (k, a) :: t, k' => if k' = k then some a else lookupTbl t k'

/-- Overwrite the row of key k in place, preserving identity (an UPDATE). -/
def updateTbl {κ α : Type} [DecidableEq κ] (t : List (κ × α)) (k : κ) (v : α) :
    List (κ × α) :=
  t.map fun p => if p.1 = k then (k, v) else p

/-- Product row (model.py lines 18-29); weight is nullable. -/
structure Product where
  name : String
  in_stock : Bool
  description : Option String
  price : Rat
  weight : Option Int
  image : String
deriving DecidableEq

/-- ShippingInformation row (model.py lines 32-40). -/
structure ShippingInformation where
  country : String
  address : String
  postal_code : String
  city : String
  province : String
deriving DecidableEq

/-- ProductOrderQuantity row (model.py lines 43-50): one product line per order. -/
structure ProductOrderQuantity where
  pid : Nat
  quantity : Int
deriving DecidableEq

/-- CreditCardDetails row (model.py lines 53-65). -/
structure CreditCardDetails where
  name : String
  number : Int
  expiration_year : Int
  cvv : Int
  expiration_month : Int
deriving DecidableEq

/-- Transaction row (model.py lines 68-74); the gateway-issued id is the primary key. -/
structure Transaction where
  id : String
  success : Bool
  amount_charged : Rat
deriving DecidableEq

/-- Order row (model.py lines 77-88); the optional fields are nullable foreign keys. -/
structure Order where
  product : Nat
  email : Option String
  credit_card : Option Nat
  shipping_information : Option Nat
  transaction : Option String
  paid : Bool
deriving DecidableEq

/-- The whole persistent store: one table per entity plus auto-increment counters. -/
structure Store where
  products : List (Nat × Product)
  poqs : List (Nat × ProductOrderQuantity)
  shippings : List (Nat × ShippingInformation)
  cards : List (Nat × CreditCardDetails)
  transactions : List (String × Transaction)
  orders : List (Nat × Order)
  nextPoq : Nat
  nextOrder : Nat
  nextShip : Nat
  nextCard : Nat
deriving DecidableEq

/-- Python exceptions surfaced by the core: OrderNotFound (model.py line 139),
    peewee DoesNotExist (missing Product or dangling foreign key), TypeError
    (arithmetic on a null value), IntegrityError (constraint or duplicate key on
    save), and any exception escaping the external charge call. -/
inductive Err
  | orderNotFound
  | doesNotExist
  | typeError
  | integrityError
  | gatewayError
deriving DecidableEq

/-- Modelled from the spec: utils/taxes.py is repository code not under src; per
    the spec the tax-rate and shipping-cost formulas are pure functions
    tax_rate(region_code) and shipping_cost(total_weight), so the embedding is
    parameterised by them. -/
structure Env where
  calculate_tax : String → Rat
  calculate_shipping_price : Int → Rat

/-- Arguments of one call to the external charge gateway (model.py lines 282-289). -/
structure ChargeArgs where
  name : String
  number : Int
  expiration_year : Int
  cvv : Int
  expiration_month : Int
  amount : Rat
deriving DecidableEq

/-- Modelled from the spec: services/external/chargingapi.py is repository code not
    under src; per the spec the gateway either yields a transaction record
    (id, success, amount_charged) or the call fails (decline, exception, timeout),
    which the embedding renders as an Option-valued behaviour. -/
abbrev GatewayBehaviour := ChargeArgs → Option Transaction

/-- Modelled from the spec: the gateway contract - a transaction record is returned
    only for a successful charge; unsuccessful charges, timeouts and exceptions
    surface as failures of the call. -/
def GatewayContract (g : GatewayBehaviour) : Prop :=
  ∀ a t, g a = some t → t.success = true

/-- The masked credit-card section of the order view (model.py lines 164-174):
    only the holder name, first four and last four digits of the number, and the
    expiration date appear; there is no cvv field. -/
structure CreditCardView where
  name : String
  first_digits : String
  last_digits : String
  expiration_year : Int
  expiration_month : Int
deriving DecidableEq

/-- The product section of the order view (model.py lines 196-199). -/
structure ProductView where
  id : Nat
  quantity : Int
deriving DecidableEq

/-- The resolved order view returned by get_order (model.py lines 153-204).
    Absent optional sections are rendered as empty structures in the JSON, which
    the embedding represents as none. -/
structure OrderView where
  id : Nat
  total_price : Rat
  total_price_tax : Option Rat
  email : Option String
  credit_card : Option CreditCardView
  shipping_information : Option ShippingInformation
  transaction : Option Transaction
  paid : Bool
  product : ProductView
  shipping_price : Rat
deriving DecidableEq

/-- Mask a stored card as get_order renders it (model.py lines 167-173): string the
    number and keep its first four and last four characters. -/
def maskCard (cc : CreditCardDetails) : CreditCardView :=
  { name := cc.name
    first_digits := (toString cc.number).take 4
    last_digits := (toString cc.number).takeRight 4
    expiration_year := cc.expiration_year
    expiration_month := cc.expiration_month }

/-- Dereference a nullable foreign key: a null field is fine (the section renders
    empty), a dangling key raises DoesNotExist. -/
def resolveOpt {κ α : Type} [DecidableEq κ] (t : List (κ × α)) :
    Option κ → Except Err (Option α)
  | none => .ok none
  | some k =>
    match lookupTbl t k with
    | none => .error .doesNotExist
    | some a => .ok (some a)

/-- get_order (model.py lines 143-204): resolve the order and its line item, then
    build the view.  total_price_tax is null exactly when no shipping information
    is attached; shipping_price is computed unconditionally from the product weight
    and quantity, so a null weight raises TypeError before any view is returned. -/
def get_order (env : Env) (s : Store) (order_id : Nat) : Except Err OrderView :=
  match lookupTbl s.orders order_id with
  | none => .error .orderNotFound
  | some order =>
  match lookupTbl s.poqs order.product with
  | none => .error .doesNotExist
  | some poq =>
  match lookupTbl s.products poq.pid with
  | none => .error .doesNotExist
  | some product =>
  match resolveOpt s.shippings order.shipping_information with
  | .error e => .error e
  | .ok siOpt =>
  match resolveOpt s.cards order.credit_card with
  | .error e => .error e
  | .ok ccOpt =>
  match resolveOpt s.transactions order.transaction with
  | .error e => .error e
  | .ok txOpt =>
  match product.weight with
  | none => .error .typeError
  | some w =>
    .ok
      { id := order_id
        total_price := product.price * (poq.quantity : Rat)
        total_price_tax :=
          siOpt.map fun si =>
            env.calculate_tax si.province * (product.price * (poq.quantity : Rat)) +
              product.price * (poq.quantity : Rat)
        email := order.email
        credit_card := ccOpt.map maskCard
        shipping_information := siOpt
        transaction := txOpt
        paid := order.paid
        product := { id := poq.pid, quantity := poq.quantity }
        shipping_price := env.calculate_shipping_price (w * poq.quantity) }

/-- add_order (model.py lines 131-136): fetch the product (DoesNotExist when
    absent), save a ProductOrderQuantity (the quantity > 0 check constraint fails
    the write otherwise), then save a fresh Order referencing it. -/
def add_order (s : Store) (product_id : Nat) (quantity : Int) :
    Store × Except Err Nat :=
  match lookupTbl s.products product_id with
  | none => (s, .error .doesNotExist)
  | some _ =>
    if quantity ≤ 0 then (s, .error .integrityError)
    else
      let pk := s.nextPoq
      let s1 := { s with
        poqs := (pk, { pid := product_id, quantity := quantity }) :: s.poqs
        nextPoq := pk + 1 }
      let ok := s1.nextOrder
      let o : Order :=
        { product := pk, email := none, credit_card := none
          shipping_information := none, transaction := none, paid := false }
      let s2 := { s1 with orders := (ok, o) :: s1.orders, nextOrder := ok + 1 }
      (s2, .ok ok)

/-- put_order_shipping_information (model.py lines 207-243): look the order up,
    create the shipping row and link it on first submission or overwrite it in
    place on resubmission, set the email, then return the resolved view. -/
def put_order_shipping_information (env : Env) (s : Store) (order_id : Nat)
    (email country address postal_code city province : String) :
    Store × Except Err OrderView :=
  match lookupTbl s.orders order_id with
  | none => (s, .error .orderNotFound)
  | some order =>
    match order.shipping_information with
    | none =>
      let sid := s.nextShip
      let si : ShippingInformation :=
        { country := country, address := address, postal_code := postal_code
          city := city, province := province }
      let order' := { order with shipping_information := some sid, email := some email }
      let s1 := { s with
        shippings := (sid, si) :: s.shippings
        nextShip := sid + 1
        orders := updateTbl s.orders order_id order' }
      (s1, get_order env s1 order_id)
    | some sid =>
      match lookupTbl s.shippings sid with
      | none => (s, .error .doesNotExist)
      | some _ =>
        let si : ShippingInformation :=
          { country := country, address := address, postal_code := postal_code
            city := city, province := province }
        let order' := { order with email := some email }
        let s1 := { s with
          shippings := updateTbl s.shippings sid si
          orders := updateTbl s.orders order_id order' }
        (s1, get_order env s1 order_id)

/-- The CHECK constraints on CreditCardDetails.expiration_month (model.py lines
    58-62): the save fails with IntegrityError unless 0 < month < 13. -/
def expirationMonthOk (expiration_month : Int) : Bool :=
  expiration_month < 13 && expiration_month > 0

/-- Phase 1 of put_order_credit_card (model.py lines 259-279) in the case where
    the expiration-month CHECK passes (put_order_credit_card guards on it; when
    the check fails the save raises inside the transaction block and nothing of
    phase 1 is committed): inside one local transaction, create the card and link
    it to the order, or overwrite the existing card in place.  Returns the
    committed store and the in-memory order object the Python code keeps using
    afterwards. -/
def put_card_phase1 (s : Store) (order_id : Nat) (order : Order) (name : String)
    (number expiration_year cvv expiration_month : Int) : Store × Order :=
  let cc : CreditCardDetails :=
    { name := name, number := number, expiration_year := expiration_year
      cvv := cvv, expiration_month := expiration_month }
  match order.credit_card with
  | none =>
    let cid := s.nextCard
    let order' := { order with credit_card := some cid }
    ({ s with
        cards := (cid, cc) :: s.cards
        nextCard := cid + 1
        orders := updateTbl s.orders order_id order' },
      order')
  | some cid =>
    ({ s with cards := updateTbl s.cards cid cc }, order)

/-- The dereference at model.py line 258: reading order.credit_card raises
    DoesNotExist if the foreign key dangles, before any write happens. -/
def derefCardOk (s : Store) (order : Order) : Bool :=
  match order.credit_card with
  | none => true
  | some cid => (lookupTbl s.cards cid).isSome

/-- put_order_credit_card (model.py lines 246-302): the settlement entry point.
    An expiration month outside 1..12 fails the phase-1 save against the CHECK
    constraints of model.py lines 58-62 with IntegrityError, committing nothing
    and never reaching the gateway.  Otherwise, after the phase-1 card commit it
    resolves the order view, computes the amount
    due as total_price_tax + shipping_price (TypeError when total_price_tax is
    null), calls the external gateway outside any local transaction, and on
    success persists the returned Transaction (force_insert, so a duplicate
    gateway id fails the phase-3 commit) and links it to the order.  The middle
    component of the result lists the gateway calls issued. -/
def put_order_credit_card (env : Env) (g : GatewayBehaviour) (s : Store)
    (order_id : Nat) (name : String)
    (number expiration_year cvv expiration_month : Int) :
    Store × List ChargeArgs × Except Err OrderView :=
  match lookupTbl s.orders order_id with
  | none => (s, [], .error .orderNotFound)
  | some order =>
    if derefCardOk s order then
      if expirationMonthOk expiration_month then
      let p1 := put_card_phase1 s order_id order name number expiration_year cvv
        expiration_month
      let s1 := p1.1
      match get_order env s1 order_id with
      | .error e => (s1, [], .error e)
      | .ok v =>
        match v.total_price_tax with
        | none => (s1, [], .error .typeError)
        | some tax =>
          let args : ChargeArgs :=
            { name := name, number := number, expiration_year := expiration_year
              cvv := cvv, expiration_month := expiration_month
              amount := tax + v.shipping_price }
          match g args with
          | none => (s1, [args], .error .gatewayError)
          | some t =>
            match lookupTbl s1.transactions t.id with
            | some _ => (s1, [args], .error .integrityError)
            | none =>
              let order2 := { p1.2 with transaction := some t.id }
              let s2 := { s1 with
                transactions := (t.id, t) :: s1.transactions
                orders := updateTbl s1.orders order_id order2 }
              (s2, [args], get_order env s2 order_id)
      else (s, [], .error .integrityError)
    else (s, [], .error .doesNotExist)

/-- Looking a key up in a table with a new head row. -/
theorem lookupTbl_cons {κ α : Type} [DecidableEq κ] (k : κ) (a : α) (t : List (κ × α))
    (k' : κ) : lookupTbl ((k, a) :: t) k' = if k' = k then some a else lookupTbl t k' :=
  rfl

/-- Looking a key up after an in-place update. -/
theorem lookupTbl_updateTbl {κ α : Type} [DecidableEq κ] (t : List (κ × α)) (k : κ)
    (v : α) (k' : κ) :
    lookupTbl (updateTbl t k v) k' =
      if k' = k then (lookupTbl t k).map fun _ => v else lookupTbl t k' := by
  induction t with
  | nil => simp [lookupTbl, updateTbl]
  | cons p t ih =>
    obtain ⟨k1, a⟩ := p
    have hu : updateTbl ((k1, a) :: t) k v =
        (if k1 = k then (k, v) else (k1, a)) :: updateTbl t k v := rfl
    rw [hu]
    by_cases h1 : k1 = k
    · subst h1
      rw [if_pos rfl]
      by_cases h2 : k' = k1 <;> simp [lookupTbl_cons, h2, ih]
    · rw [if_neg h1]
      have h1' : ¬k = k1 := fun hh => h1 hh.symm
      by_cases h2 : k' = k1
      · have h3 : ¬k' = k := fun hh => h1 (h2.symm.trans hh)
        simp [lookupTbl_cons, h1, h2, h3]
      · simp [lookupTbl_cons, h2, h1', ih]

theorem lookupTbl_updateTbl_self {κ α : Type} [DecidableEq κ] {t : List (κ × α)}
    {k : κ} {a : α} (v : α) (h : lookupTbl t k = some a) :
    lookupTbl (updateTbl t k v) k = some v := by
  simp [lookupTbl_updateTbl, h]

theorem lookupTbl_updateTbl_ne {κ α : Type} [DecidableEq κ] {t : List (κ × α)}
    {k k' : κ} (v : α) (h : k' ≠ k) :
    lookupTbl (updateTbl t k v) k' = lookupTbl t k' := by
  simp [lookupTbl_updateTbl, h]

/-- An in-place update never changes the number of rows. -/
theorem length_updateTbl {κ α : Type} [DecidableEq κ] (t : List (κ × α)) (k : κ)
    (v : α) : (updateTbl t k v).length = t.length := by
  simp [updateTbl]

theorem resolveOpt_some {κ α : Type} [DecidableEq κ] {t : List (κ × α)} {k : κ}
    {a : α} (h : lookupTbl t k = some a) : resolveOpt t (some k) = .ok (some a) := by
  simp [resolveOpt, h]

theorem resolveOpt_ok_none_iff {κ α : Type} [DecidableEq κ] {t : List (κ × α)}
    {o : Option κ} : resolveOpt t o = .ok none ↔ o = none := by
  cases o with
  | none => simp [resolveOpt]
  | some k =>
    simp only [resolveOpt]
    cases lookupTbl t k <;> simp

theorem resolveOpt_ok_some_iff {κ α : Type} [DecidableEq κ] {t : List (κ × α)}
    {o : Option κ} {a : α} :
    resolveOpt t o = .ok (some a) ↔ ∃ k, o = some k ∧ lookupTbl t k = some a := by
  cases o with
  | none => simp [resolveOpt]
  | some k =>
    simp only [resolveOpt]
    cases h : lookupTbl t k <;> simp [h, eq_comm]

/-- Forward evaluation of get_order when every lookup resolves and the product
    has a weight. -/
theorem get_order_eq (env : Env) (s : Store) (oid : Nat) (order : Order)
    (poq : ProductOrderQuantity) (product : Product) (w : Int)
    (siOpt : Option ShippingInformation) (ccOpt : Option CreditCardDetails)
    (txOpt : Option Transaction)
    (horder : lookupTbl s.orders oid = some order)
    (hpoq : lookupTbl s.poqs order.product = some poq)
    (hprod : lookupTbl s.products poq.pid = some product)
    (hsi : resolveOpt s.shippings order.shipping_information = .ok siOpt)
    (hcc : resolveOpt s.cards order.credit_card = .ok ccOpt)
    (htx : resolveOpt s.transactions order.transaction = .ok txOpt)
    (hw : product.weight = some w) :
    get_order env s oid = .ok
      { id := oid
        total_price := product.price * (poq.quantity : Rat)
        total_price_tax :=
          siOpt.map fun si =>
            env.calculate_tax si.province * (product.price * (poq.quantity : Rat)) +
              product.price * (poq.quantity : Rat)
        email := order.email
        credit_card := ccOpt.map maskCard
        shipping_information := siOpt
        transaction := txOpt
        paid := order.paid
        product := { id := poq.pid, quantity := poq.quantity }
        shipping_price := env.calculate_shipping_price (w * poq.quantity) } := by
  simp [get_order, horder, hpoq, hprod, hsi, hcc, htx, hw]

/-- Forward evaluation of get_order when the product weight is null: the
    unconditional shipping_price computation raises TypeError. -/
theorem get_order_weight_typeError (env : Env) (s : Store) (oid : Nat)
    (order : Order) (poq : ProductOrderQuantity) (product : Product)
    (siOpt : Option ShippingInformation) (ccOpt : Option CreditCardDetails)
    (txOpt : Option Transaction)
    (horder : lookupTbl s.orders oid = some order)
    (hpoq : lookupTbl s.poqs order.product = some poq)
    (hprod : lookupTbl s.products poq.pid = some product)
    (hsi : resolveOpt s.shippings order.shipping_information = .ok siOpt)
    (hcc : resolveOpt s.cards order.credit_card = .ok ccOpt)
    (htx : resolveOpt s.transactions order.transaction = .ok txOpt)
    (hw : product.weight = none) :
    get_order env s oid = .error .typeError := by
  simp [get_order, horder, hpoq, hprod, hsi, hcc, htx, hw]

/-- Inversion: a successful get_order determines every lookup and the view. -/
theorem get_order_ok_inv {env : Env} {s : Store} {oid : Nat} {v : OrderView}
    (h : get_order env s oid = .ok v) :
    ∃ order poq product w siOpt ccOpt txOpt,
      lookupTbl s.orders oid = some order ∧
      lookupTbl s.poqs order.product = some poq ∧
      lookupTbl s.products poq.pid = some product ∧
      resolveOpt s.shippings order.shipping_information = .ok siOpt ∧
      resolveOpt s.cards order.credit_card = .ok ccOpt ∧
      resolveOpt s.transactions order.transaction = .ok txOpt ∧
      product.weight = some w ∧
      v = { id := oid
            total_price := product.price * (poq.quantity : Rat)
            total_price_tax :=
              siOpt.map fun si =>
                env.calculate_tax si.province * (product.price * (poq.quantity : Rat)) +
                  product.price * (poq.quantity : Rat)
            email := order.email
            credit_card := ccOpt.map maskCard
            shipping_information := siOpt
            transaction := txOpt
            paid := order.paid
            product := { id := poq.pid, quantity := poq.quantity }
            shipping_price := env.calculate_shipping_price (w * poq.quantity) } := by
  unfold get_order at h
  split at h
  · exact absurd h (by simp)
  next order horder =>
  split at h
  · exact absurd h (by simp)
  next poq hpoq =>
  split at h
  · exact absurd h (by simp)
  next product hprod =>
  split at h
  · exact absurd h (by simp)
  next siOpt hsi =>
  split at h
  · exact absurd h (by simp)
  next ccOpt hcc =>
  split at h
  · exact absurd h (by simp)
  next txOpt htx =>
  split at h
  · exact absurd h (by simp)
  next w hw =>
  injection h with h
  exact ⟨order, poq, product, w, siOpt, ccOpt, txOpt, horder, hpoq, hprod, hsi, hcc,
    htx, hw, h.symm⟩

/-- Replacing the credit-card link of an order by its current value is the identity. -/
theorem order_card_eta (o : Order) (cid : Nat) (h : o.credit_card = some cid) :
    { o with credit_card := some cid } = o := by
  cases o
  simp_all

/-- A resolvable nullable card link passes the dereference at model.py line 258. -/
theorem derefCardOk_of_resolve {s : Store} {order : Order}
    {ccOpt : Option CreditCardDetails}
    (hcc : resolveOpt s.cards order.credit_card = .ok ccOpt) :
    derefCardOk s order = true := by
  cases hcase : order.credit_card with
  | none => simp [derefCardOk, hcase]
  | some cid =>
    rw [hcase] at hcc
    simp only [resolveOpt] at hcc
    cases hl : lookupTbl s.cards cid with
    | none => rw [hl] at hcc; exact absurd hcc (by simp)
    | some cc => simp [derefCardOk, hcase, hl]

/-- Effect of the phase-1 card commit: a card holding exactly the submitted fields
    is on file and linked to the order; every other table is untouched. -/
theorem put_card_phase1_spec (s : Store) (oid : Nat) (order : Order) (nm : String)
    (num ey cv em : Int)
    (horder : lookupTbl s.orders oid = some order)
    (hderef : derefCardOk s order = true) :
    ∃ cid,
      (put_card_phase1 s oid order nm num ey cv em).2 =
        { order with credit_card := some cid } ∧
      lookupTbl (put_card_phase1 s oid order nm num ey cv em).1.orders oid =
        some (put_card_phase1 s oid order nm num ey cv em).2 ∧
      lookupTbl (put_card_phase1 s oid order nm num ey cv em).1.cards cid =
        some { name := nm, number := num, expiration_year := ey, cvv := cv
               expiration_month := em } ∧
      (put_card_phase1 s oid order nm num ey cv em).1.poqs = s.poqs ∧
      (put_card_phase1 s oid order nm num ey cv em).1.products = s.products ∧
      (put_card_phase1 s oid order nm num ey cv em).1.shippings = s.shippings ∧
      (put_card_phase1 s oid order nm num ey cv em).1.transactions = s.transactions ∧
      ∀ k, k ≠ oid →
        lookupTbl (put_card_phase1 s oid order nm num ey cv em).1.orders k =
          lookupTbl s.orders k := by
  cases hcc : order.credit_card with
  | none =>
    have hp : put_card_phase1 s oid order nm num ey cv em =
        ({ s with
            cards := (s.nextCard,
              { name := nm, number := num, expiration_year := ey, cvv := cv
                expiration_month := em }) :: s.cards
            nextCard := s.nextCard + 1
            orders := updateTbl s.orders oid
              { order with credit_card := some s.nextCard } },
          { order with credit_card := some s.nextCard }) := by
      simp [put_card_phase1, hcc]
    rw [hp]
    exact ⟨s.nextCard, rfl, lookupTbl_updateTbl_self _ horder,
      by simp [lookupTbl_cons], rfl, rfl, rfl, rfl,
      fun k hk => lookupTbl_updateTbl_ne _ hk⟩
  | some cid =>
    have hsome : (lookupTbl s.cards cid).isSome := by
      simpa [derefCardOk, hcc] using hderef
    obtain ⟨cc0, hcc0⟩ := Option.isSome_iff_exists.mp hsome
    have hp : put_card_phase1 s oid order nm num ey cv em =
        ({ s with
            cards := updateTbl s.cards cid
              { name := nm, number := num, expiration_year := ey, cvv := cv
                expiration_month := em } },
          order) := by
      simp [put_card_phase1, hcc]
    rw [hp]
    exact ⟨cid, (order_card_eta order cid hcc).symm, horder,
      lookupTbl_updateTbl_self _ hcc0, rfl, rfl, rfl, rfl, fun k hk => rfl⟩

/-- put_order_credit_card when resolving the view after phase 1 raises. -/
theorem put_order_credit_card_view_err (env : Env) (g : GatewayBehaviour)
    (s : Store) (oid : Nat) (order : Order) (nm : String) (num ey cv em : Int)
    (e : Err)
    (horder : lookupTbl s.orders oid = some order)
    (hderef : derefCardOk s order = true)
    (hmonth : expirationMonthOk em = true)
    (hview : get_order env (put_card_phase1 s oid order nm num ey cv em).1 oid =
      .error e) :
    put_order_credit_card env g s oid nm num ey cv em =
      ((put_card_phase1 s oid order nm num ey cv em).1, [], .error e) := by
  simp [put_order_credit_card, horder, hderef, hmonth, hview]

/-- put_order_credit_card when the view resolves but total_price_tax is null: the
    amount-due addition raises TypeError before any gateway call. -/
theorem put_order_credit_card_tax_none (env : Env) (g : GatewayBehaviour)
    (s : Store) (oid : Nat) (order : Order) (nm : String) (num ey cv em : Int)
    (v : OrderView)
    (horder : lookupTbl s.orders oid = some order)
    (hderef : derefCardOk s order = true)
    (hmonth : expirationMonthOk em = true)
    (hview : get_order env (put_card_phase1 s oid order nm num ey cv em).1 oid =
      .ok v)
    (htax : v.total_price_tax = none) :
    put_order_credit_card env g s oid nm num ey cv em =
      ((put_card_phase1 s oid order nm num ey cv em).1, [], .error .typeError) := by
  simp [put_order_credit_card, horder, hderef, hmonth, hview, htax]

/-- put_order_credit_card when the gateway call fails: one call was issued, no
    transaction is recorded, and the store is the phase-1 store. -/
theorem put_order_credit_card_gateway_fail (env : Env) (g : GatewayBehaviour)
    (s : Store) (oid : Nat) (order : Order) (nm : String) (num ey cv em : Int)
    (v : OrderView) (tax : Rat)
    (horder : lookupTbl s.orders oid = some order)
    (hderef : derefCardOk s order = true)
    (hmonth : expirationMonthOk em = true)
    (hview : get_order env (put_card_phase1 s oid order nm num ey cv em).1 oid =
      .ok v)
    (htax : v.total_price_tax = some tax)
    (hg : g { name := nm, number := num, expiration_year := ey, cvv := cv
              expiration_month := em, amount := tax + v.shipping_price } = none) :
    put_order_credit_card env g s oid nm num ey cv em =
      ((put_card_phase1 s oid order nm num ey cv em).1,
        [{ name := nm, number := num, expiration_year := ey, cvv := cv
           expiration_month := em, amount := tax + v.shipping_price }],
        .error .gatewayError) := by
  simp [put_order_credit_card, horder, hderef, hmonth, hview, htax, hg]

/-- put_order_credit_card on the success path: the gateway transaction is inserted
    under its gateway-issued id, linked to the order, and the refreshed view is
    returned; exactly one gateway call was issued. -/
theorem put_order_credit_card_ok (env : Env) (g : GatewayBehaviour)
    (s : Store) (oid : Nat) (order : Order) (nm : String) (num ey cv em : Int)
    (v : OrderView) (tax : Rat) (t : Transaction)
    (horder : lookupTbl s.orders oid = some order)
    (hderef : derefCardOk s order = true)
    (hmonth : expirationMonthOk em = true)
    (hview : get_order env (put_card_phase1 s oid order nm num ey cv em).1 oid =
      .ok v)
    (htax : v.total_price_tax = some tax)
    (hg : g { name := nm, number := num, expiration_year := ey, cvv := cv
              expiration_month := em, amount := tax + v.shipping_price } = some t)
    (hfresh : lookupTbl
      (put_card_phase1 s oid order nm num ey cv em).1.transactions t.id = none) :
    put_order_credit_card env g s oid nm num ey cv em =
      ({ (put_card_phase1 s oid order nm num ey cv em).1 with
          transactions := (t.id, t) ::
            (put_card_phase1 s oid order nm num ey cv em).1.transactions
          orders := updateTbl
            (put_card_phase1 s oid order nm num ey cv em).1.orders oid
            { (put_card_phase1 s oid order nm num ey cv em).2 with
                transaction := some t.id } },
        [{ name := nm, number := num, expiration_year := ey, cvv := cv
           expiration_month := em, amount := tax + v.shipping_price }],
        get_order env
          { (put_card_phase1 s oid order nm num ey cv em).1 with
              transactions := (t.id, t) ::
                (put_card_phase1 s oid order nm num ey cv em).1.transactions
              orders := updateTbl
                (put_card_phase1 s oid order nm num ey cv em).1.orders oid
                { (put_card_phase1 s oid order nm num ey cv em).2 with
                    transaction := some t.id } } oid) := by
  simp [put_order_credit_card, horder, hderef, hmonth, hview, htax, hg, hfresh]

/-- put_order_shipping_information on first submission: create the row, link it,
    set the email, return the refreshed view. -/
theorem put_shipping_create_eq (env : Env) (s : Store) (oid : Nat) (order : Order)
    (e c a p ci pr : String)
    (horder : lookupTbl s.orders oid = some order)
    (hnone : order.shipping_information = none) :
    put_order_shipping_information env s oid e c a p ci pr =
      ({ s with
          shippings := (s.nextShip,
            { country := c, address := a, postal_code := p, city := ci
              province := pr }) :: s.shippings
          nextShip := s.nextShip + 1
          orders := updateTbl s.orders oid
            { order with shipping_information := some s.nextShip, email := some e } },
        get_order env
          { s with
            shippings := (s.nextShip,
              { country := c, address := a, postal_code := p, city := ci
                province := pr }) :: s.shippings
            nextShip := s.nextShip + 1
            orders := updateTbl s.orders oid
              { order with shipping_information := some s.nextShip
                           email := some e } } oid) := by
  simp [put_order_shipping_information, horder, hnone]

/-- put_order_shipping_information on resubmission: overwrite the existing row in
    place, update the email, return the refreshed view. -/
theorem put_shipping_update_eq (env : Env) (s : Store) (oid : Nat) (order : Order)
    (sid : Nat) (si0 : ShippingInformation) (e c a p ci pr : String)
    (horder : lookupTbl s.orders oid = some order)
    (hsid : order.shipping_information = some sid)
    (hfound : lookupTbl s.shippings sid = some si0) :
    put_order_shipping_information env s oid e c a p ci pr =
      ({ s with
          shippings := updateTbl s.shippings sid
            { country := c, address := a, postal_code := p, city := ci
              province := pr }
          orders := updateTbl s.orders oid { order with email := some e } },
        get_order env
          { s with
            shippings := updateTbl s.shippings sid
              { country := c, address := a, postal_code := p, city := ci
                province := pr }
            orders := updateTbl s.orders oid { order with email := some e } } oid) := by
  simp [put_order_shipping_information, horder, hsid, hfound]

/-- A concrete pricing environment used by the witnesses. -/
def env0 : Env :=
  { calculate_tax := fun p => if p = "QC" then 15 / 100 else 1 / 10
    calculate_shipping_price := fun w => (w : Rat) / 2 }

/-- A concrete gateway that always accepts and echoes the amount. -/
def gOk : GatewayBehaviour :=
  fun a => some { id := "tok1", success := true, amount_charged := a.amount }

/-- A concrete gateway whose calls always fail. -/
def gFail : GatewayBehaviour := fun _ => none

theorem gOk_contract : GatewayContract gOk := by
  intro a t h
  simp only [gOk] at h
  rw [← Option.some.inj h]

/-- A store with no rows at all. -/
def emptyStore : Store :=
  { products := [], poqs := [], shippings := [], cards := [], transactions := []
    orders := [], nextPoq := 1, nextOrder := 1, nextShip := 1, nextCard := 1 }

/-- A product with a recorded weight. -/
def prodW : Product :=
  { name := "widget", in_stock := true, description := none, price := 10
    weight := some 2, image := "img" }

/-- The same product with no recorded weight. -/
def prodNoW : Product := { prodW with weight := none }

def poq1 : ProductOrderQuantity := { pid := 1, quantity := 3 }

def si1 : ShippingInformation :=
  { country := "Canada", address := "a", postal_code := "p", city := "c"
    province := "QC" }

/-- An order linked to shipping information, no card, no transaction. -/
def ord1 : Order :=
  { product := 1, email := some "e@x", credit_card := none
    shipping_information := some 1, transaction := none, paid := false }

/-- One weighted product, one line item of quantity 3, one order with shipping. -/
def storeShip : Store :=
  { products := [(1, prodW)], poqs := [(1, poq1)], shippings := [(1, si1)]
    cards := [], transactions := [], orders := [(1, ord1)]
    nextPoq := 2, nextOrder := 2, nextShip := 2, nextCard := 2 }

def card1 : CreditCardDetails :=
  { name := "john", number := 4111111111111111, expiration_year := 2028
    cvv := 123, expiration_month := 4 }

def ordCard : Order := { ord1 with credit_card := some 1 }

/-- storeShip with a credit card on file and linked to the order. -/
def storeCard : Store :=
  { storeShip with cards := [(1, card1)], orders := [(1, ordCard)] }

/-- Only the weightless product, nothing else. -/
def storeNoW : Store :=
  { emptyStore with products := [(1, prodNoW)] }

/-- Only the weighted product, nothing else. -/
def storeProd : Store :=
  { emptyStore with products := [(1, prodW)] }

/-- Fallback view used to name the payload of a successful get_order. -/
def viewOf (r : Except Err OrderView) : OrderView :=
  match r with
  | .ok v => v
  | .error _ =>
    { id := 0, total_price := 0, total_price_tax := none, email := none
      credit_card := none, shipping_information := none, transaction := none
      paid := false, product := { id := 0, quantity := 0 }, shipping_price := 0 }

/-- C4: an order identifier that resolves to no Order makes get_order,
    put_order_shipping_information and put_order_credit_card fail with
    OrderNotFound, with no view returned, the store unchanged, and no gateway
    call issued. -/
theorem C4_order_not_found (env : Env) (g : GatewayBehaviour) (s : Store)
    (oid : Nat) (e c a p ci pr nm : String) (num ey cv em : Int)
    (h : lookupTbl s.orders oid = none) :
    get_order env s oid = .error .orderNotFound ∧
    put_order_shipping_information env s oid e c a p ci pr =
      (s, .error .orderNotFound) ∧
    put_order_credit_card env g s oid nm num ey cv em =
      (s, [], .error .orderNotFound) := by
  refine ⟨?_, ?_, ?_⟩ <;>
    simp [get_order, put_order_shipping_information, put_order_credit_card, h]

theorem C4_order_not_found_witness :
    get_order env0 emptyStore 7 = .error .orderNotFound ∧
    put_order_shipping_information env0 emptyStore 7 "e" "c" "a" "p" "ci" "pr" =
      (emptyStore, .error .orderNotFound) ∧
    put_order_credit_card env0 gOk emptyStore 7 "n" 1 2 3 4 =
      (emptyStore, [], .error .orderNotFound) :=
  C4_order_not_found env0 gOk emptyStore 7 "e" "c" "a" "p" "ci" "pr" "n" 1 2 3 4 rfl

/-- C3: whenever get_order returns a view, total_price_tax is null exactly when no
    shipping information is linked to the order, and otherwise it equals
    total_price * (1 + tax_rate(province)), the rate depending only on the
    attached province code. -/
theorem C3_total_price_tax (env : Env) (s : Store) (oid : Nat) (v : OrderView)
    (order : Order)
    (horder : lookupTbl s.orders oid = some order)
    (h : get_order env s oid = .ok v) :
    (v.total_price_tax = none ↔ order.shipping_information = none) ∧
    ∀ sid si, order.shipping_information = some sid →
      lookupTbl s.shippings sid = some si →
      v.total_price_tax =
        some (v.total_price * (1 + env.calculate_tax si.province)) := by
  obtain ⟨order', poq, product, w, siOpt, ccOpt, txOpt, horder', hpoq, hprod, hsi,
    hcc, htx, hw, hv⟩ := get_order_ok_inv h
  have heq : order' = order := Option.some.inj (horder'.symm.trans horder)
  subst heq
  subst hv
  refine ⟨⟨fun hnone => ?_, fun hnone => ?_⟩, fun sid si hsid hsi' => ?_⟩
  · have hs : siOpt = none := by
      cases siOpt with
      | none => rfl
      | some si => simp at hnone
    exact resolveOpt_ok_none_iff.mp (hs ▸ hsi)
  · rw [hnone] at hsi
    have hs : siOpt = none := by simpa [resolveOpt] using hsi.symm
    simp [hs]
  · rw [hsid] at hsi
    have hsOpt : siOpt = some si :=
      (Except.ok.inj ((resolveOpt_some hsi').symm.trans hsi)).symm
    subst hsOpt
    show some _ = some _
    exact congrArg some (by ring)

theorem C3_total_price_tax_witness :
    ((viewOf (get_order env0 storeShip 1)).total_price_tax = none ↔
      ord1.shipping_information = none) ∧
    ∀ sid si, ord1.shipping_information = some sid →
      lookupTbl storeShip.shippings sid = some si →
      (viewOf (get_order env0 storeShip 1)).total_price_tax =
        some ((viewOf (get_order env0 storeShip 1)).total_price *
          (1 + env0.calculate_tax si.province)) :=
  C3_total_price_tax env0 storeShip 1 (viewOf (get_order env0 storeShip 1)) ord1
    rfl rfl

/-- C7: whenever get_order returns a view of an order with a linked credit card,
    the card section exposes exactly the holder name, the first four and last four
    digits of the stored number, and the expiration date - the view type carries
    no cvv field at all; for number 4111111111111111 the rendered digits are
    4111 and 1111. -/
theorem C7_masked_card (env : Env) (s : Store) (oid : Nat) (v : OrderView)
    (order : Order) (cid : Nat) (cc : CreditCardDetails)
    (horder : lookupTbl s.orders oid = some order)
    (hcid : order.credit_card = some cid)
    (hcc : lookupTbl s.cards cid = some cc)
    (h : get_order env s oid = .ok v) :
    v.credit_card = some
      { name := cc.name
        first_digits := (toString cc.number).take 4
        last_digits := (toString cc.number).takeRight 4
        expiration_year := cc.expiration_year
        expiration_month := cc.expiration_month } ∧
    (cc.number = 4111111111111111 →
      v.credit_card = some
        { name := cc.name, first_digits := "4111", last_digits := "1111"
          expiration_year := cc.expiration_year
          expiration_month := cc.expiration_month }) := by
  obtain ⟨order', poq, product, w, siOpt, ccOpt, txOpt, horder', hpoq, hprod, hsi,
    hcc', htx, hw, hv⟩ := get_order_ok_inv h
  have heq : order' = order := Option.some.inj (horder'.symm.trans horder)
  subst heq
  subst hv
  rw [hcid] at hcc'
  have hcOpt : ccOpt = some cc :=
    (Except.ok.inj ((resolveOpt_some hcc).symm.trans hcc')).symm
  subst hcOpt
  constructor
  · rfl
  · intro hnum
    show some (maskCard cc) = some _
    rw [maskCard, hnum]
    rfl

theorem C7_masked_card_witness :
    (viewOf (get_order env0 storeCard 1)).credit_card = some
      { name := card1.name
        first_digits := (toString card1.number).take 4
        last_digits := (toString card1.number).takeRight 4
        expiration_year := card1.expiration_year
        expiration_month := card1.expiration_month } ∧
    (card1.number = 4111111111111111 →
      (viewOf (get_order env0 storeCard 1)).credit_card = some
        { name := card1.name, first_digits := "4111", last_digits := "1111"
          expiration_year := card1.expiration_year
          expiration_month := card1.expiration_month }) :=
  C7_masked_card env0 storeCard 1 (viewOf (get_order env0 storeCard 1)) ordCard 1
    card1 rfl rfl rfl rfl

/-- The line item add_order creates. -/
def newPoq (pid : Nat) (q : Int) : ProductOrderQuantity := { pid := pid, quantity := q }

/-- The order row add_order creates. -/
def newOrder (pk : Nat) : Order :=
  { product := pk, email := none, credit_card := none, shipping_information := none
    transaction := none, paid := false }

/-- C5 counterexample: product 1 exists with no recorded weight, quantity 1 is
    positive, add_order hands back order id 1, yet get_order on that id raises
    TypeError instead of succeeding. -/
theorem C5_counterexample :
    lookupTbl storeNoW.products 1 = some prodNoW ∧
    (0 : Int) < 1 ∧
    (add_order storeNoW 1 1).2 = .ok 1 ∧
    get_order env0 (add_order storeNoW 1 1).1 1 = .error .typeError :=
  ⟨rfl, by decide, rfl, rfl⟩

/-- C5 amended: for every existing product with a recorded weight and every
    quantity > 0, add_order returns an order id on which get_order succeeds and
    reports that product id and quantity, with total_price the product price
    times the quantity. -/
theorem C5_add_order_roundtrip (env : Env) (s : Store) (pid : Nat) (q : Int)
    (p : Product) (w : Int)
    (hp : lookupTbl s.products pid = some p)
    (hw : p.weight = some w)
    (hq : 0 < q) :
    ∃ oid v, (add_order s pid q).2 = .ok oid ∧
      get_order env (add_order s pid q).1 oid = .ok v ∧
      v.product = { id := pid, quantity := q } ∧
      v.total_price = p.price * (q : Rat) := by
  have hnot : ¬q ≤ 0 := not_le.mpr hq
  have h1 : lookupTbl (add_order s pid q).1.orders s.nextOrder =
      some (newOrder s.nextPoq) := by
    simp [add_order, hp, hnot, lookupTbl_cons, newOrder]
  have h2 : lookupTbl (add_order s pid q).1.poqs (newOrder s.nextPoq).product =
      some (newPoq pid q) := by
    simp [add_order, hp, hnot, lookupTbl_cons, newOrder, newPoq]
  have h3 : lookupTbl (add_order s pid q).1.products (newPoq pid q).pid = some p := by
    simp [add_order, hp, hnot, newPoq, hp]
  have hview := get_order_eq env (add_order s pid q).1 s.nextOrder
    (newOrder s.nextPoq) (newPoq pid q) p w none none none h1 h2 h3 rfl rfl rfl hw
  have hfst : (add_order s pid q).2 = .ok s.nextOrder := by
    simp [add_order, hp, hnot]
  exact ⟨s.nextOrder, _, hfst, hview, rfl, rfl⟩

theorem C5_add_order_roundtrip_witness :
    ∃ oid v, (add_order storeProd 1 2).2 = .ok oid ∧
      get_order env0 (add_order storeProd 1 2).1 oid = .ok v ∧
      v.product = { id := 1, quantity := 2 } ∧
      v.total_price = prodW.price * ((2 : Int) : Rat) :=
  C5_add_order_roundtrip env0 storeProd 1 2 prodW 2 rfl rfl (by decide)

/-- C9: when the ordered product has no recorded weight, get_order raises
    TypeError in the unconditional shipping_price computation instead of
    returning a view, and the same TypeError is what
    put_order_shipping_information and put_order_credit_card return, the latter
    without ever calling the gateway (for a card submission passing the
    expiration-month CHECK; an out-of-range month fails earlier with
    IntegrityError). -/
theorem C9_null_weight (env : Env) (g : GatewayBehaviour) (s : Store) (oid : Nat)
    (order : Order) (poq : ProductOrderQuantity) (product : Product)
    (siOpt : Option ShippingInformation) (ccOpt : Option CreditCardDetails)
    (txOpt : Option Transaction) (e c a p ci pr nm : String) (num ey cv em : Int)
    (horder : lookupTbl s.orders oid = some order)
    (hpoq : lookupTbl s.poqs order.product = some poq)
    (hprod : lookupTbl s.products poq.pid = some product)
    (hsi : resolveOpt s.shippings order.shipping_information = .ok siOpt)
    (hcc : resolveOpt s.cards order.credit_card = .ok ccOpt)
    (htx : resolveOpt s.transactions order.transaction = .ok txOpt)
    (hmonth : expirationMonthOk em = true)
    (hw : product.weight = none) :
    get_order env s oid = .error .typeError ∧
    (put_order_shipping_information env s oid e c a p ci pr).2 = .error .typeError ∧
    (put_order_credit_card env g s oid nm num ey cv em).2.1 = [] ∧
    (put_order_credit_card env g s oid nm num ey cv em).2.2 = .error .typeError := by
  refine ⟨get_order_weight_typeError env s oid order poq product siOpt ccOpt txOpt
    horder hpoq hprod hsi hcc htx hw, ?_, ?_⟩
  case refine_2 =>
    -- the two put_order_credit_card conjuncts
    have hderef := derefCardOk_of_resolve hcc
    obtain ⟨cid, hord1, horder1, hcard1, hpoqs, hprods, hships, htxs, _⟩ :=
      put_card_phase1_spec s oid order nm num ey cv em horder hderef
    have hview : get_order env (put_card_phase1 s oid order nm num ey cv em).1 oid =
        .error .typeError := by
      refine get_order_weight_typeError env _ oid _ poq product siOpt (some
        { name := nm, number := num, expiration_year := ey, cvv := cv
          expiration_month := em }) txOpt horder1 ?_ ?_ ?_ ?_ ?_ hw
      · rw [hord1, hpoqs]; exact hpoq
      · rw [hprods]; exact hprod
      · rw [hord1, hships]; exact hsi
      · rw [hord1]; exact resolveOpt_some hcard1
      · rw [hord1, htxs]; exact htx
    rw [put_order_credit_card_view_err env g s oid order nm num ey cv em .typeError
      horder hderef hmonth hview]
    exact ⟨rfl, rfl⟩
  case refine_1 =>
    cases hship : order.shipping_information with
    | none =>
      rw [put_shipping_create_eq env s oid order e c a p ci pr horder hship]
      refine get_order_weight_typeError env _ oid
        { order with shipping_information := some s.nextShip, email := some e }
        poq product
        (some { country := c, address := a, postal_code := p, city := ci,
                province := pr }) ccOpt txOpt
        (lookupTbl_updateTbl_self _ horder) hpoq hprod ?_ hcc htx hw
      exact resolveOpt_some (by simp [lookupTbl_cons])
    | some sid =>
      rw [hship] at hsi
      have hfound : ∃ si0, lookupTbl s.shippings sid = some si0 := by
        cases hl : lookupTbl s.shippings sid with
        | none => simp [resolveOpt, hl] at hsi
        | some si0 => exact ⟨si0, rfl⟩
      obtain ⟨si0, hfound⟩ := hfound
      rw [put_shipping_update_eq env s oid order sid si0 e c a p ci pr horder hship
        hfound]
      refine get_order_weight_typeError env _ oid { order with email := some e }
        poq product
        (some { country := c, address := a, postal_code := p, city := ci,
                province := pr }) ccOpt txOpt
        (lookupTbl_updateTbl_self _ horder) hpoq hprod ?_ hcc htx hw
      have hres : resolveOpt
          (updateTbl s.shippings sid (ShippingInformation.mk c a p ci pr))
          order.shipping_information =
          .ok (some (ShippingInformation.mk c a p ci pr)) := by
        rw [hship]
        exact resolveOpt_some (lookupTbl_updateTbl_self _ hfound)
      exact hres

/-- storeShip with the weightless product instead. -/
def storeShipNoW : Store := { storeShip with products := [(1, prodNoW)] }

theorem C9_null_weight_witness :
    get_order env0 storeShipNoW 1 = .error .typeError ∧
    (put_order_shipping_information env0 storeShipNoW 1 "e" "c" "a" "p" "ci"
      "pr").2 = .error .typeError ∧
    (put_order_credit_card env0 gOk storeShipNoW 1 "n" 1 2 3 4).2.1 = [] ∧
    (put_order_credit_card env0 gOk storeShipNoW 1 "n" 1 2 3 4).2.2 =
      .error .typeError :=
  C9_null_weight env0 gOk storeShipNoW 1 ord1 poq1 prodNoW (some si1) none none
    "e" "c" "a" "p" "ci" "pr" "n" 1 2 3 4 rfl rfl rfl rfl rfl rfl rfl rfl

/-- C10: on an existing order with no shipping information attached,
    put_order_credit_card with a card submission passing the expiration-month
    CHECK commits the phase-1 card create-or-update (the card is on file and
    linked), then fails with TypeError while computing the amount due, before any
    gateway call: no charge is issued and no Transaction is stored. -/
theorem C10_no_shipping (env : Env) (g : GatewayBehaviour) (s : Store) (oid : Nat)
    (order : Order) (poq : ProductOrderQuantity) (product : Product)
    (ccOpt : Option CreditCardDetails) (txOpt : Option Transaction) (nm : String)
    (num ey cv em : Int)
    (horder : lookupTbl s.orders oid = some order)
    (hpoq : lookupTbl s.poqs order.product = some poq)
    (hprod : lookupTbl s.products poq.pid = some product)
    (hship : order.shipping_information = none)
    (hcc : resolveOpt s.cards order.credit_card = .ok ccOpt)
    (htx : resolveOpt s.transactions order.transaction = .ok txOpt)
    (hmonth : expirationMonthOk em = true) :
    ∃ cid,
      put_order_credit_card env g s oid nm num ey cv em =
        ((put_card_phase1 s oid order nm num ey cv em).1, [], .error .typeError) ∧
      lookupTbl (put_card_phase1 s oid order nm num ey cv em).1.cards cid =
        some { name := nm, number := num, expiration_year := ey, cvv := cv
               expiration_month := em } ∧
      lookupTbl (put_card_phase1 s oid order nm num ey cv em).1.orders oid =
        some { order with credit_card := some cid } ∧
      (put_card_phase1 s oid order nm num ey cv em).1.transactions =
        s.transactions := by
  have hderef := derefCardOk_of_resolve hcc
  obtain ⟨cid, hord1, horder1, hcard1, hpoqs, hprods, hships, htxs, _⟩ :=
    put_card_phase1_spec s oid order nm num ey cv em horder hderef
  refine ⟨cid, ?_, hcard1, by rw [hord1] at horder1; exact horder1, htxs⟩
  cases hw : product.weight with
  | none =>
    have hview : get_order env (put_card_phase1 s oid order nm num ey cv em).1 oid =
        .error .typeError := by
      refine get_order_weight_typeError env _ oid _ poq product none (some
        { name := nm, number := num, expiration_year := ey, cvv := cv
          expiration_month := em }) txOpt horder1 ?_ ?_ ?_ ?_ ?_ hw
      · rw [hord1, hpoqs]; exact hpoq
      · rw [hprods]; exact hprod
      · rw [hord1, hships]
        show resolveOpt _ order.shipping_information = _
        rw [hship]
        rfl
      · rw [hord1]; exact resolveOpt_some hcard1
      · rw [hord1, htxs]; exact htx
    exact put_order_credit_card_view_err env g s oid order nm num ey cv em
      .typeError horder hderef hmonth hview
  | some w =>
    have hview := get_order_eq env (put_card_phase1 s oid order nm num ey cv em).1
      oid (put_card_phase1 s oid order nm num ey cv em).2 poq product w none (some
        { name := nm, number := num, expiration_year := ey, cvv := cv
          expiration_month := em }) txOpt horder1
      (by rw [hord1, hpoqs]; exact hpoq) (by rw [hprods]; exact hprod)
      (by rw [hord1, hships]
          show resolveOpt _ order.shipping_information = _
          rw [hship]
          rfl)
      (by rw [hord1]; exact resolveOpt_some hcard1)
      (by rw [hord1, htxs]; exact htx) hw
    exact put_order_credit_card_tax_none env g s oid order nm num ey cv em _
      horder hderef hmonth hview rfl

/-- storeShip's order with the shipping link removed. -/
def ordNoShip : Order := { ord1 with shipping_information := none }

/-- storeShip without any shipping information. -/
def storeNoShip : Store :=
  { storeShip with shippings := [], orders := [(1, ordNoShip)] }

theorem C10_no_shipping_witness :
    ∃ cid,
      put_order_credit_card env0 gOk storeNoShip 1 "n" 1 2 3 4 =
        ((put_card_phase1 storeNoShip 1 ordNoShip "n" 1 2 3 4).1, [],
          .error .typeError) ∧
      lookupTbl (put_card_phase1 storeNoShip 1 ordNoShip "n" 1 2 3 4).1.cards cid =
        some { name := "n", number := 1, expiration_year := 2, cvv := 3
               expiration_month := 4 } ∧
      lookupTbl (put_card_phase1 storeNoShip 1 ordNoShip "n" 1 2 3 4).1.orders 1 =
        some { ordNoShip with credit_card := some cid } ∧
      (put_card_phase1 storeNoShip 1 ordNoShip "n" 1 2 3 4).1.transactions =
        storeNoShip.transactions :=
  C10_no_shipping env0 gOk storeNoShip 1 ordNoShip poq1 prodW none none "n" 1 2 3 4
    rfl rfl rfl rfl rfl rfl rfl

/-- put_order_credit_card when the gateway returns an id already in storage: the
    phase-3 force_insert fails and nothing of phase 3 is committed. -/
theorem put_order_credit_card_dup (env : Env) (g : GatewayBehaviour) (s : Store)
    (oid : Nat) (order : Order) (nm : String) (num ey cv em : Int) (v : OrderView)
    (tax : Rat) (t t0 : Transaction)
    (horder : lookupTbl s.orders oid = some order)
    (hderef : derefCardOk s order = true)
    (hmonth : expirationMonthOk em = true)
    (hview : get_order env (put_card_phase1 s oid order nm num ey cv em).1 oid =
      .ok v)
    (htax : v.total_price_tax = some tax)
    (hg : g { name := nm, number := num, expiration_year := ey, cvv := cv
              expiration_month := em, amount := tax + v.shipping_price } = some t)
    (hdup : lookupTbl
      (put_card_phase1 s oid order nm num ey cv em).1.transactions t.id =
        some t0) :
    put_order_credit_card env g s oid nm num ey cv em =
      ((put_card_phase1 s oid order nm num ey cv em).1,
        [{ name := nm, number := num, expiration_year := ey, cvv := cv
           expiration_month := em, amount := tax + v.shipping_price }],
        .error .integrityError) := by
  simp [put_order_credit_card, horder, hderef, hmonth, hview, htax, hg, hdup]

/-- An in-place order update with the paid flag kept intact preserves every
    order's paid flag. -/
theorem updateTbl_paid_pres {t : List (Nat × Order)} {oid : Nat} {order : Order}
    (new : Order)
    (horder : lookupTbl t oid = some order) (hpaid : new.paid = order.paid) :
    ∀ k o', lookupTbl (updateTbl t oid new) k = some o' →
      ∃ o, lookupTbl t k = some o ∧ o'.paid = o.paid := by
  intro k o' hk
  by_cases hko : k = oid
  · subst hko
    rw [lookupTbl_updateTbl_self new horder] at hk
    obtain rfl := Option.some.inj hk
    exact ⟨order, horder, hpaid⟩
  · rw [lookupTbl_updateTbl_ne new hko] at hk
    exact ⟨o', hk, rfl⟩

/-- add_order only adds an unpaid order: every order in the resulting store is
    either the fresh unpaid one or carries its previous paid flag. -/
theorem add_order_paid (s : Store) (pid : Nat) (q : Int) :
    ∀ k o', lookupTbl (add_order s pid q).1.orders k = some o' →
      o'.paid = false ∨ ∃ o, lookupTbl s.orders k = some o ∧ o'.paid = o.paid := by
  intro k o' hk
  cases hp : lookupTbl s.products pid with
  | none =>
    simp only [add_order, hp] at hk
    exact .inr ⟨o', hk, rfl⟩
  | some p =>
    by_cases hq : q ≤ 0
    · simp only [add_order, hp, if_pos hq] at hk
      exact .inr ⟨o', hk, rfl⟩
    · have hstore : (add_order s pid q).1.orders =
          (s.nextOrder, newOrder s.nextPoq) :: s.orders := by
        simp [add_order, hp, hq, newOrder]
      rw [hstore, lookupTbl_cons] at hk
      by_cases hko : k = s.nextOrder
      · rw [if_pos hko] at hk
        obtain rfl := Option.some.inj hk
        exact .inl rfl
      · rw [if_neg hko] at hk
        exact .inr ⟨o', hk, rfl⟩

/-- put_order_shipping_information never touches any order's paid flag. -/
theorem put_shipping_paid (env : Env) (s : Store) (oid : Nat)
    (e c a p ci pr : String) :
    ∀ k o',
      lookupTbl (put_order_shipping_information env s oid e c a p ci pr).1.orders k
        = some o' →
      ∃ o, lookupTbl s.orders k = some o ∧ o'.paid = o.paid := by
  intro k o' hk
  cases horder : lookupTbl s.orders oid with
  | none =>
    simp only [put_order_shipping_information, horder] at hk
    exact ⟨o', hk, rfl⟩
  | some order =>
    cases hship : order.shipping_information with
    | none =>
      rw [put_shipping_create_eq env s oid order e c a p ci pr horder hship] at hk
      exact updateTbl_paid_pres
        { order with shipping_information := some s.nextShip, email := some e }
        horder rfl k o' hk
    | some sid =>
      cases hfound : lookupTbl s.shippings sid with
      | none =>
        simp only [put_order_shipping_information, horder, hship, hfound] at hk
        exact ⟨o', hk, rfl⟩
      | some si0 =>
        rw [put_shipping_update_eq env s oid order sid si0 e c a p ci pr horder
          hship hfound] at hk
        exact updateTbl_paid_pres { order with email := some e } horder rfl k o' hk

/-- put_order_credit_card never touches any order's paid flag, on any of its
    paths including a successful settlement. -/
theorem put_card_paid (env : Env) (g : GatewayBehaviour) (s : Store) (oid : Nat)
    (nm : String) (num ey cv em : Int) :
    ∀ k o',
      lookupTbl (put_order_credit_card env g s oid nm num ey cv em).1.orders k
        = some o' →
      ∃ o, lookupTbl s.orders k = some o ∧ o'.paid = o.paid := by
  intro k o' hk
  cases horder : lookupTbl s.orders oid with
  | none =>
    simp only [put_order_credit_card, horder] at hk
    exact ⟨o', hk, rfl⟩
  | some order =>
    cases hderef : derefCardOk s order with
    | false =>
      simp only [put_order_credit_card, horder, hderef, Bool.false_eq_true,
        if_false] at hk
      exact ⟨o', hk, rfl⟩
    | true =>
      by_cases hmonth : expirationMonthOk em = true
      case neg =>
        simp [put_order_credit_card, horder, hderef, hmonth] at hk
        exact ⟨o', hk, rfl⟩
      obtain ⟨cid, hord1, horder1, hcard1, hpoqs, hprods, hships, htxs, hother⟩ :=
        put_card_phase1_spec s oid order nm num ey cv em horder hderef
      have hpres1 : ∀ k o',
          lookupTbl (put_card_phase1 s oid order nm num ey cv em).1.orders k =
            some o' →
          ∃ o, lookupTbl s.orders k = some o ∧ o'.paid = o.paid := by
        intro k o' hk
        by_cases hko : k = oid
        · subst hko
          rw [horder1] at hk
          obtain rfl := Option.some.inj hk
          rw [hord1]
          exact ⟨order, horder, rfl⟩
        · rw [hother k hko] at hk
          exact ⟨o', hk, rfl⟩
      cases hview : get_order env (put_card_phase1 s oid order nm num ey cv em).1
          oid with
      | error e =>
        rw [put_order_credit_card_view_err env g s oid order nm num ey cv em e
          horder hderef hmonth hview] at hk
        exact hpres1 k o' hk
      | ok v =>
        cases htax : v.total_price_tax with
        | none =>
          rw [put_order_credit_card_tax_none env g s oid order nm num ey cv em v
            horder hderef hmonth hview htax] at hk
          exact hpres1 k o' hk
        | some tax =>
          cases hg : g (ChargeArgs.mk nm num ey cv em
              (tax + v.shipping_price)) with
          | none =>
            rw [put_order_credit_card_gateway_fail env g s oid order nm num ey cv
              em v tax horder hderef hmonth hview htax hg] at hk
            exact hpres1 k o' hk
          | some t =>
            cases hfresh : lookupTbl
                (put_card_phase1 s oid order nm num ey cv em).1.transactions
                t.id with
            | some t0 =>
              rw [put_order_credit_card_dup env g s oid order nm num ey cv em v
                tax t t0 horder hderef hmonth hview htax hg hfresh] at hk
              exact hpres1 k o' hk
            | none =>
              rw [put_order_credit_card_ok env g s oid order nm num ey cv em v
                tax t horder hderef hmonth hview htax hg hfresh] at hk
              obtain ⟨o1, ho1, hp1⟩ := updateTbl_paid_pres
                { (put_card_phase1 s oid order nm num ey cv em).2 with
                  transaction := some t.id }
                horder1 rfl k o' hk
              obtain ⟨o0, ho0, hp0⟩ := hpres1 k o1 ho1
              exact ⟨o0, ho0, hp1.trans hp0⟩

/-- C8: the paid flag is false on every order add_order creates, and none of the
    three core operations - shipping submission, card submission, even a
    successful settlement - ever changes any order's paid flag; settlement
    success is visible only through the linked Transaction. -/
theorem C8_paid_flag (env : Env) (g : GatewayBehaviour) :
    (∀ s pid q oid o, (add_order s pid q).2 = .ok oid →
      lookupTbl (add_order s pid q).1.orders oid = some o → o.paid = false) ∧
    (∀ s pid q k o', lookupTbl (add_order s pid q).1.orders k = some o' →
      o'.paid = false ∨ ∃ o, lookupTbl s.orders k = some o ∧ o'.paid = o.paid) ∧
    (∀ s oid e c a p ci pr k o',
      lookupTbl (put_order_shipping_information env s oid e c a p ci pr).1.orders k
        = some o' →
      ∃ o, lookupTbl s.orders k = some o ∧ o'.paid = o.paid) ∧
    (∀ s oid nm num ey cv em k o',
      lookupTbl (put_order_credit_card env g s oid nm num ey cv em).1.orders k
        = some o' →
      ∃ o, lookupTbl s.orders k = some o ∧ o'.paid = o.paid) := by
  refine ⟨?_, fun s pid q => add_order_paid s pid q,
    fun s oid e c a p ci pr => put_shipping_paid env s oid e c a p ci pr,
    fun s oid nm num ey cv em => put_card_paid env g s oid nm num ey cv em⟩
  intro s pid q oid o h1 h2
  cases hp : lookupTbl s.products pid with
  | none => simp [add_order, hp] at h1
  | some p =>
    by_cases hq : q ≤ 0
    · simp [add_order, hp, hq] at h1
    · have hok : (add_order s pid q).2 = .ok s.nextOrder := by
        simp [add_order, hp, hq]
      obtain rfl : oid = s.nextOrder := (Except.ok.inj (hok.symm.trans h1)).symm
      have hstore : (add_order s pid q).1.orders =
          (s.nextOrder, newOrder s.nextPoq) :: s.orders := by
        simp [add_order, hp, hq, newOrder]
      rw [hstore, lookupTbl_cons, if_pos rfl] at h2
      obtain rfl := Option.some.inj h2
      rfl

theorem C8_paid_flag_witness : (newOrder 1).paid = false :=
  (C8_paid_flag env0 gOk).1 storeProd 1 2 1 (newOrder 1) rfl rfl

/-- C1: when put_order_credit_card completes successfully on an order, exactly one
    gateway call was made, its amount equals total_price_tax + shipping_price as
    resolved by get_order after the phase-1 card commit, and the returned view -
    which is get_order on the final store - shows a non-empty transaction holding
    exactly the id, success flag (true, by the gateway contract) and charged
    amount the gateway returned. -/
theorem C1_settlement (env : Env) (g : GatewayBehaviour) (s : Store) (oid : Nat)
    (nm : String) (num ey cv em : Int) (s' : Store) (calls : List ChargeArgs)
    (v : OrderView)
    (hcontract : GatewayContract g)
    (h : put_order_credit_card env g s oid nm num ey cv em = (s', calls, .ok v)) :
    ∃ order w tax t,
      lookupTbl s.orders oid = some order ∧
      get_order env (put_card_phase1 s oid order nm num ey cv em).1 oid = .ok w ∧
      w.total_price_tax = some tax ∧
      calls = [ChargeArgs.mk nm num ey cv em (tax + w.shipping_price)] ∧
      g (ChargeArgs.mk nm num ey cv em (tax + w.shipping_price)) = some t ∧
      t.success = true ∧
      get_order env s' oid = .ok v ∧
      v.transaction = some t := by
  cases horder : lookupTbl s.orders oid with
  | none => simp [put_order_credit_card, horder] at h
  | some order =>
    cases hderef : derefCardOk s order with
    | false =>
      simp [put_order_credit_card, horder, hderef] at h
    | true =>
      by_cases hmonth : expirationMonthOk em = true
      case neg =>
        simp [put_order_credit_card, horder, hderef, hmonth] at h
      cases hview : get_order env (put_card_phase1 s oid order nm num ey cv em).1
          oid with
      | error e =>
        rw [put_order_credit_card_view_err env g s oid order nm num ey cv em e
          horder hderef hmonth hview] at h
        simp at h
      | ok w =>
        cases htax : w.total_price_tax with
        | none =>
          rw [put_order_credit_card_tax_none env g s oid order nm num ey cv em w
            horder hderef hmonth hview htax] at h
          simp at h
        | some tax =>
          cases hg : g (ChargeArgs.mk nm num ey cv em (tax + w.shipping_price))
              with
          | none =>
            rw [put_order_credit_card_gateway_fail env g s oid order nm num ey cv
              em w tax horder hderef hmonth hview htax hg] at h
            simp at h
          | some t =>
            cases hfresh : lookupTbl
                (put_card_phase1 s oid order nm num ey cv em).1.transactions
                t.id with
            | some t0 =>
              rw [put_order_credit_card_dup env g s oid order nm num ey cv em w
                tax t t0 horder hderef hmonth hview htax hg hfresh] at h
              simp at h
            | none =>
              rw [put_order_credit_card_ok env g s oid order nm num ey cv em w
                tax t horder hderef hmonth hview htax hg hfresh] at h
              have hs' := congrArg (fun x => x.1) h
              have hcalls := congrArg (fun x => x.2.1) h
              have hres := congrArg (fun x => x.2.2) h
              simp only at hs' hcalls hres
              obtain ⟨cid, hord1, horder1, hcard1, hpoqs, hprods, hships, htxs,
                hother⟩ := put_card_phase1_spec s oid order nm num ey cv em horder
                  hderef
              obtain ⟨o1, poq, product, w0, siOpt, ccOpt, txOpt, ho1, hpoq1,
                hprod1, hsi1, hcc1, htx1, hw1, hvw⟩ := get_order_ok_inv hview
              obtain rfl : o1 = (put_card_phase1 s oid order nm num ey cv em).2 :=
                (Option.some.inj (horder1.symm.trans ho1)).symm
              have horder2 : lookupTbl
                  (updateTbl (put_card_phase1 s oid order nm num ey cv em).1.orders
                    oid
                    { (put_card_phase1 s oid order nm num ey cv em).2 with
                        transaction := some t.id }) oid =
                  some { (put_card_phase1 s oid order nm num ey cv em).2 with
                        transaction := some t.id } :=
                lookupTbl_updateTbl_self _ horder1
              have hview2 := get_order_eq env
                { (put_card_phase1 s oid order nm num ey cv em).1 with
                    transactions := (t.id, t) ::
                      (put_card_phase1 s oid order nm num ey cv em).1.transactions
                    orders := updateTbl
                      (put_card_phase1 s oid order nm num ey cv em).1.orders oid
                      { (put_card_phase1 s oid order nm num ey cv em).2 with
                          transaction := some t.id } }
                oid
                { (put_card_phase1 s oid order nm num ey cv em).2 with
                    transaction := some t.id }
                poq product w0 siOpt ccOpt (some t)
                horder2 hpoq1 hprod1 hsi1 hcc1
                (resolveOpt_some (by simp [lookupTbl_cons])) hw1
              have hv2 := Except.ok.inj (hview2.symm.trans hres)
              refine ⟨order, w, tax, t, rfl, hview, htax, hcalls.symm, hg,
                hcontract _ t hg, ?_, ?_⟩
              · rw [← hs']
                exact hres
              · rw [← hv2]

/-- The concrete successful settlement run used by the C1 witness. -/
def run1 : Store × List ChargeArgs × Except Err OrderView :=
  put_order_credit_card env0 gOk storeShip 1 "john" 4111111111111111 2028 123 4

theorem C1_settlement_witness :
    ∃ order w tax t,
      lookupTbl storeShip.orders 1 = some order ∧
      get_order env0
        (put_card_phase1 storeShip 1 order "john" 4111111111111111 2028 123 4).1
        1 = .ok w ∧
      w.total_price_tax = some tax ∧
      run1.2.1 =
        [ChargeArgs.mk "john" 4111111111111111 2028 123 4
          (tax + w.shipping_price)] ∧
      gOk (ChargeArgs.mk "john" 4111111111111111 2028 123 4
        (tax + w.shipping_price)) = some t ∧
      t.success = true ∧
      get_order env0 run1.1 1 = .ok (viewOf run1.2.2) ∧
      (viewOf run1.2.2).transaction = some t :=
  C1_settlement env0 gOk storeShip 1 "john" 4111111111111111 2028 123 4 run1.1
    run1.2.1 (viewOf run1.2.2) gOk_contract rfl

/-- C2: for submissions whose expiration month passes the schema CHECK (an
    out-of-range month fails phase 1 with IntegrityError instead), if the gateway
    call fails, the order keeps its linked credit card while its transaction link
    and the transaction table stay untouched; a second, corrected attempt whose
    charge succeeds stores exactly one Transaction - across both attempts - and
    links it to the order. -/
theorem C2_gateway_failure_then_retry (env : Env) (g1 g2 : GatewayBehaviour)
    (s : Store) (oid : Nat) (order : Order) (poq : ProductOrderQuantity)
    (product : Product) (w : Int) (sid : Nat) (si : ShippingInformation)
    (ccOpt : Option CreditCardDetails) (t : Transaction) (nm1 nm2 : String)
    (num1 ey1 cv1 em1 num2 ey2 cv2 em2 : Int)
    (horder : lookupTbl s.orders oid = some order)
    (hpoq : lookupTbl s.poqs order.product = some poq)
    (hprod : lookupTbl s.products poq.pid = some product)
    (hw : product.weight = some w)
    (hship : order.shipping_information = some sid)
    (hsi : lookupTbl s.shippings sid = some si)
    (hcc : resolveOpt s.cards order.credit_card = .ok ccOpt)
    (htxnone : order.transaction = none)
    (hmonth1 : expirationMonthOk em1 = true)
    (hmonth2 : expirationMonthOk em2 = true)
    (hg1 : ∀ a, g1 a = none)
    (hg2 : ∀ a, g2 a = some t)
    (hfresh : lookupTbl s.transactions t.id = none) :
    ∃ s1 calls1 order1 cid1 cc1,
      put_order_credit_card env g1 s oid nm1 num1 ey1 cv1 em1 =
        (s1, calls1, .error .gatewayError) ∧
      lookupTbl s1.orders oid = some order1 ∧
      order1.credit_card = some cid1 ∧
      lookupTbl s1.cards cid1 = some cc1 ∧
      order1.transaction = none ∧
      s1.transactions = s.transactions ∧
      ∃ s2 calls2 order2 v,
        put_order_credit_card env g2 s1 oid nm2 num2 ey2 cv2 em2 =
          (s2, calls2, .ok v) ∧
        lookupTbl s2.orders oid = some order2 ∧
        order2.transaction = some t.id ∧
        s2.transactions = (t.id, t) :: s.transactions ∧
        v.transaction = some t := by
  have hderef := derefCardOk_of_resolve hcc
  obtain ⟨cid1, hord1, horder1, hcard1, hpoqs1, hprods1, hships1, htxs1, hother1⟩ :=
    put_card_phase1_spec s oid order nm1 num1 ey1 cv1 em1 horder hderef
  obtain ⟨v1, hview1, tax1, htax1⟩ :
      ∃ v1, get_order env (put_card_phase1 s oid order nm1 num1 ey1 cv1 em1).1 oid
          = .ok v1 ∧
        ∃ tax1, v1.total_price_tax = some tax1 := by
    refine ⟨_, get_order_eq env
      (put_card_phase1 s oid order nm1 num1 ey1 cv1 em1).1 oid
      (put_card_phase1 s oid order nm1 num1 ey1 cv1 em1).2 poq product w (some si)
      (some (CreditCardDetails.mk nm1 num1 ey1 cv1 em1)) none
      horder1
      (by rw [hord1, hpoqs1]; exact hpoq)
      (by rw [hprods1]; exact hprod)
      (by rw [hord1, hships1]
          show resolveOpt _ order.shipping_information = _
          rw [hship]
          exact resolveOpt_some hsi)
      (by rw [hord1]; exact resolveOpt_some hcard1)
      (by rw [hord1, htxs1]
          show resolveOpt _ order.transaction = _
          rw [htxnone]
          rfl)
      hw, ⟨_, rfl⟩⟩
  have heq1 := put_order_credit_card_gateway_fail env g1 s oid order nm1 num1 ey1
    cv1 em1 v1 tax1 horder hderef hmonth1 hview1 htax1 (hg1 _)
  rw [hord1] at horder1
  refine ⟨(put_card_phase1 s oid order nm1 num1 ey1 cv1 em1).1, _,
    { order with credit_card := some cid1 }, cid1,
    CreditCardDetails.mk nm1 num1 ey1 cv1 em1,
    heq1, horder1, rfl, hcard1, htxnone, htxs1, ?_⟩
  -- second attempt, from the phase-1 store of the failed one
  have hpoq' : lookupTbl
      (put_card_phase1 s oid order nm1 num1 ey1 cv1 em1).1.poqs
      ({ order with credit_card := some cid1 } : Order).product = some poq := by
    rw [hpoqs1]; exact hpoq
  have hprod' := hprod
  have hsi' : lookupTbl
      (put_card_phase1 s oid order nm1 num1 ey1 cv1 em1).1.shippings sid =
      some si := by
    rw [hships1]; exact hsi
  have hcc' : resolveOpt (put_card_phase1 s oid order nm1 num1 ey1 cv1 em1).1.cards
      ({ order with credit_card := some cid1 } : Order).credit_card =
      .ok (some (CreditCardDetails.mk nm1 num1 ey1 cv1 em1)) :=
    resolveOpt_some hcard1
  have hfresh' : lookupTbl
      (put_card_phase1 s oid order nm1 num1 ey1 cv1 em1).1.transactions t.id =
      none := by
    rw [htxs1]; exact hfresh
  have hderef' : derefCardOk (put_card_phase1 s oid order nm1 num1 ey1 cv1 em1).1
      { order with credit_card := some cid1 } = true :=
    derefCardOk_of_resolve hcc'
  obtain ⟨cid2, hord2, horder2, hcard2, hpoqs2, hprods2, hships2, htxs2, hother2⟩ :=
    put_card_phase1_spec (put_card_phase1 s oid order nm1 num1 ey1 cv1 em1).1 oid
      { order with credit_card := some cid1 } nm2 num2 ey2 cv2 em2 horder1 hderef'
  obtain ⟨v2, hview2, tax2, htax2⟩ :
      ∃ v2, get_order env
          (put_card_phase1 (put_card_phase1 s oid order nm1 num1 ey1 cv1 em1).1
            oid { order with credit_card := some cid1 } nm2 num2 ey2 cv2 em2).1
          oid = .ok v2 ∧
        ∃ tax2, v2.total_price_tax = some tax2 := by
    refine ⟨_, get_order_eq env _ oid
      (put_card_phase1 (put_card_phase1 s oid order nm1 num1 ey1 cv1 em1).1
        oid { order with credit_card := some cid1 } nm2 num2 ey2 cv2 em2).2
      poq product w (some si)
      (some (CreditCardDetails.mk nm2 num2 ey2 cv2 em2)) none
      horder2
      (by rw [hord2, hpoqs2]; exact hpoq')
      (by rw [hprods2, hprods1]; exact hprod)
      (by rw [hord2, hships2]
          show resolveOpt _ ({ order with credit_card := some cid1 } :
            Order).shipping_information = _
          show resolveOpt _ order.shipping_information = _
          rw [hship]
          exact resolveOpt_some hsi')
      (by rw [hord2]; exact resolveOpt_some hcard2)
      (by rw [hord2, htxs2]
          show resolveOpt _ ({ order with credit_card := some cid1 } :
            Order).transaction = _
          show resolveOpt _ order.transaction = _
          rw [htxnone]
          rfl)
      hw, ⟨_, rfl⟩⟩
  have hfresh2 : lookupTbl
      (put_card_phase1 (put_card_phase1 s oid order nm1 num1 ey1 cv1 em1).1 oid
        { order with credit_card := some cid1 } nm2 num2 ey2 cv2
        em2).1.transactions t.id = none := by
    rw [htxs2]; exact hfresh'
  have heq2 := put_order_credit_card_ok env g2
    (put_card_phase1 s oid order nm1 num1 ey1 cv1 em1).1 oid
    { order with credit_card := some cid1 } nm2 num2 ey2 cv2 em2 v2 tax2 t
    horder1 hderef' hmonth2 hview2 htax2 (hg2 _) hfresh2
  have horder3 : lookupTbl
      (updateTbl
        (put_card_phase1 (put_card_phase1 s oid order nm1 num1 ey1 cv1 em1).1
          oid { order with credit_card := some cid1 } nm2 num2 ey2 cv2
          em2).1.orders oid
        { (put_card_phase1 (put_card_phase1 s oid order nm1 num1 ey1 cv1 em1).1
            oid { order with credit_card := some cid1 } nm2 num2 ey2 cv2 em2).2
          with transaction := some t.id }) oid =
      some { (put_card_phase1
          (put_card_phase1 s oid order nm1 num1 ey1 cv1 em1).1 oid
          { order with credit_card := some cid1 } nm2 num2 ey2 cv2 em2).2
        with transaction := some t.id } :=
    lookupTbl_updateTbl_self _ horder2
  have hview3 := get_order_eq env
    { (put_card_phase1 (put_card_phase1 s oid order nm1 num1 ey1 cv1 em1).1
        oid { order with credit_card := some cid1 } nm2 num2 ey2 cv2 em2).1 with
      transactions := (t.id, t) ::
        (put_card_phase1 (put_card_phase1 s oid order nm1 num1 ey1 cv1 em1).1
          oid { order with credit_card := some cid1 } nm2 num2 ey2 cv2
          em2).1.transactions
      orders := updateTbl
        (put_card_phase1 (put_card_phase1 s oid order nm1 num1 ey1 cv1 em1).1
          oid { order with credit_card := some cid1 } nm2 num2 ey2 cv2
          em2).1.orders oid
        { (put_card_phase1 (put_card_phase1 s oid order nm1 num1 ey1 cv1 em1).1
            oid { order with credit_card := some cid1 } nm2 num2 ey2 cv2 em2).2
          with transaction := some t.id } }
    oid
    { (put_card_phase1 (put_card_phase1 s oid order nm1 num1 ey1 cv1 em1).1
        oid { order with credit_card := some cid1 } nm2 num2 ey2 cv2 em2).2
      with transaction := some t.id }
    poq product w (some si)
    (some (CreditCardDetails.mk nm2 num2 ey2 cv2 em2)) (some t)
    horder3
    (by rw [hord2, hpoqs2]; exact hpoq')
    (by rw [hprods2, hprods1]; exact hprod)
    (by rw [hord2, hships2]
        show resolveOpt _ ({ order with credit_card := some cid1 } :
          Order).shipping_information = _
        show resolveOpt _ order.shipping_information = _
        rw [hship]
        exact resolveOpt_some hsi')
    (by rw [hord2]; exact resolveOpt_some hcard2)
    (resolveOpt_some (by simp [lookupTbl_cons]))
    hw
  rw [hview3] at heq2
  refine ⟨_, _, _, _, heq2, horder3, rfl, ?_, rfl⟩
  exact congrArg (List.cons (t.id, t)) (htxs2.trans htxs1)

/-- A gateway that always accepts with one fixed transaction record. -/
def tConst : Transaction := { id := "t2", success := true, amount_charged := 42 }

def gConst : GatewayBehaviour := fun _ => some tConst

theorem C2_gateway_failure_then_retry_witness :
    ∃ s1 calls1 order1 cid1 cc1,
      put_order_credit_card env0 gFail storeShip 1 "a" 1 2 3 4 =
        (s1, calls1, .error .gatewayError) ∧
      lookupTbl s1.orders 1 = some order1 ∧
      order1.credit_card = some cid1 ∧
      lookupTbl s1.cards cid1 = some cc1 ∧
      order1.transaction = none ∧
      s1.transactions = storeShip.transactions ∧
      ∃ s2 calls2 order2 v,
        put_order_credit_card env0 gConst s1 1 "b" 5 6 7 8 =
          (s2, calls2, .ok v) ∧
        lookupTbl s2.orders 1 = some order2 ∧
        order2.transaction = some tConst.id ∧
        s2.transactions = (tConst.id, tConst) :: storeShip.transactions ∧
        v.transaction = some tConst :=
  C2_gateway_failure_then_retry env0 gFail gConst storeShip 1 ord1 poq1 prodW 2 1
    si1 none tConst "a" "b" 1 2 3 4 5 6 7 8 rfl rfl rfl rfl rfl rfl rfl rfl rfl
    rfl (fun _ => rfl) (fun _ => rfl) rfl

theorem put_shipping_create_fst (env : Env) (s : Store) (oid : Nat) (order : Order)
    (e c a p ci pr : String)
    (horder : lookupTbl s.orders oid = some order)
    (hnone : order.shipping_information = none) :
    (put_order_shipping_information env s oid e c a p ci pr).1 =
      { s with
        shippings := (s.nextShip, ShippingInformation.mk c a p ci pr) :: s.shippings
        nextShip := s.nextShip + 1
        orders := updateTbl s.orders oid
          { order with shipping_information := some s.nextShip
                       email := some e } } := by
  rw [put_shipping_create_eq env s oid order e c a p ci pr horder hnone]

theorem put_shipping_update_fst (env : Env) (s : Store) (oid : Nat) (order : Order)
    (sid : Nat) (si0 : ShippingInformation) (e c a p ci pr : String)
    (horder : lookupTbl s.orders oid = some order)
    (hsid : order.shipping_information = some sid)
    (hfound : lookupTbl s.shippings sid = some si0) :
    (put_order_shipping_information env s oid e c a p ci pr).1 =
      { s with
        shippings := updateTbl s.shippings sid (ShippingInformation.mk c a p ci pr)
        orders := updateTbl s.orders oid { order with email := some e } } := by
  rw [put_shipping_update_eq env s oid order sid si0 e c a p ci pr horder hsid
    hfound]

theorem put_shipping_update_snd (env : Env) (s : Store) (oid : Nat) (order : Order)
    (sid : Nat) (si0 : ShippingInformation) (e c a p ci pr : String)
    (horder : lookupTbl s.orders oid = some order)
    (hsid : order.shipping_information = some sid)
    (hfound : lookupTbl s.shippings sid = some si0) :
    (put_order_shipping_information env s oid e c a p ci pr).2 =
      get_order env
        { s with
          shippings := updateTbl s.shippings sid
            (ShippingInformation.mk c a p ci pr)
          orders := updateTbl s.orders oid { order with email := some e } }
        oid := by
  rw [put_shipping_update_eq env s oid order sid si0 e c a p ci pr horder hsid
    hfound]

/-- C6: submitting shipping information twice leaves a single ShippingInformation
    row linked to the order - created on the first call when absent, the same
    identity both times - holding the second submission's fields; the resubmission
    creates no second row, and any view the second call returns shows the second
    province's tax rate applied to the unchanged total price. -/
theorem C6_resubmit_shipping (env : Env) (s : Store) (oid : Nat) (order : Order)
    (poq : ProductOrderQuantity) (product : Product)
    (e1 c1 a1 p1 ci1 pr1 e2 c2 a2 p2 ci2 pr2 : String)
    (horder : lookupTbl s.orders oid = some order)
    (hpoq : lookupTbl s.poqs order.product = some poq)
    (hprod : lookupTbl s.products poq.pid = some product)
    (hres : ∀ sid0, order.shipping_information = some sid0 →
      ∃ si0, lookupTbl s.shippings sid0 = some si0) :
    ∃ sid order1 order2,
      lookupTbl
        (put_order_shipping_information env s oid e1 c1 a1 p1 ci1 pr1).1.orders
        oid = some order1 ∧
      order1.shipping_information = some sid ∧
      lookupTbl
        (put_order_shipping_information env
          (put_order_shipping_information env s oid e1 c1 a1 p1 ci1 pr1).1 oid
          e2 c2 a2 p2 ci2 pr2).1.orders oid = some order2 ∧
      order2.shipping_information = some sid ∧
      lookupTbl
        (put_order_shipping_information env
          (put_order_shipping_information env s oid e1 c1 a1 p1 ci1 pr1).1 oid
          e2 c2 a2 p2 ci2 pr2).1.shippings sid =
        some (ShippingInformation.mk c2 a2 p2 ci2 pr2) ∧
      (put_order_shipping_information env
        (put_order_shipping_information env s oid e1 c1 a1 p1 ci1 pr1).1 oid
        e2 c2 a2 p2 ci2 pr2).1.shippings.length =
        (put_order_shipping_information env s oid e1 c1 a1 p1 ci1
          pr1).1.shippings.length ∧
      (order.shipping_information = none →
        (put_order_shipping_information env s oid e1 c1 a1 p1 ci1
          pr1).1.shippings.length = s.shippings.length + 1) ∧
      (∀ sid0, order.shipping_information = some sid0 →
        sid = sid0 ∧
        (put_order_shipping_information env s oid e1 c1 a1 p1 ci1
          pr1).1.shippings.length = s.shippings.length) ∧
      ∀ v, (put_order_shipping_information env
          (put_order_shipping_information env s oid e1 c1 a1 p1 ci1 pr1).1 oid
          e2 c2 a2 p2 ci2 pr2).2 = .ok v →
        v.total_price = product.price * (poq.quantity : Rat) ∧
        v.total_price_tax = some (env.calculate_tax pr2 *
          (product.price * (poq.quantity : Rat)) +
          product.price * (poq.quantity : Rat)) := by
  cases hship0 : order.shipping_information with
  | none =>
    rw [put_shipping_create_fst env s oid order e1 c1 a1 p1 ci1 pr1 horder hship0]
    have horder1 : lookupTbl
        (updateTbl s.orders oid
          { order with shipping_information := some s.nextShip
                       email := some e1 }) oid =
        some { order with shipping_information := some s.nextShip
                          email := some e1 } :=
      lookupTbl_updateTbl_self _ horder
    have hlook1 : lookupTbl
        ((s.nextShip, ShippingInformation.mk c1 a1 p1 ci1 pr1) :: s.shippings)
        s.nextShip = some (ShippingInformation.mk c1 a1 p1 ci1 pr1) := by
      simp [lookupTbl_cons]
    rw [put_shipping_update_fst env _ oid
      { order with shipping_information := some s.nextShip, email := some e1 }
      s.nextShip (ShippingInformation.mk c1 a1 p1 ci1 pr1) e2 c2 a2 p2 ci2 pr2
      horder1 rfl hlook1]
    rw [put_shipping_update_snd env _ oid
      { order with shipping_information := some s.nextShip, email := some e1 }
      s.nextShip (ShippingInformation.mk c1 a1 p1 ci1 pr1) e2 c2 a2 p2 ci2 pr2
      horder1 rfl hlook1]
    have horder2 : lookupTbl
        (updateTbl
          (updateTbl s.orders oid
            { order with shipping_information := some s.nextShip
                         email := some e1 }) oid
          { order with shipping_information := some s.nextShip
                       email := some e2 }) oid =
        some { order with shipping_information := some s.nextShip
                          email := some e2 } :=
      lookupTbl_updateTbl_self _ horder1
    refine ⟨s.nextShip,
      { order with shipping_information := some s.nextShip, email := some e1 },
      { order with shipping_information := some s.nextShip, email := some e2 },
      horder1, rfl, horder2, rfl,
      lookupTbl_updateTbl_self _ hlook1,
      length_updateTbl _ _ _,
      fun _ => rfl,
      fun sid0 hs0 => Option.noConfusion hs0,
      ?_⟩
    intro v hv
    obtain ⟨o', poq', product', w', siOpt', ccOpt', txOpt', ho', hpoq'', hprod'',
      hsi'', hcc'', htx'', hw'', hveq⟩ := get_order_ok_inv hv
    obtain rfl := Option.some.inj (ho'.symm.trans horder2)
    obtain rfl := Option.some.inj (hpoq''.symm.trans hpoq)
    obtain rfl := Option.some.inj (hprod''.symm.trans hprod)
    have hsiknown : resolveOpt
        (updateTbl
          ((s.nextShip, ShippingInformation.mk c1 a1 p1 ci1 pr1) :: s.shippings)
          s.nextShip (ShippingInformation.mk c2 a2 p2 ci2 pr2))
        (some s.nextShip) =
        .ok (some (ShippingInformation.mk c2 a2 p2 ci2 pr2)) :=
      resolveOpt_some (lookupTbl_updateTbl_self _ hlook1)
    obtain rfl := Except.ok.inj (hsi''.symm.trans hsiknown)
    subst hveq
    exact ⟨rfl, rfl⟩
  | some sid0 =>
    obtain ⟨si0, hsi0⟩ := hres sid0 hship0
    rw [put_shipping_update_fst env s oid order sid0 si0 e1 c1 a1 p1 ci1 pr1
      horder hship0 hsi0]
    have horder1 : lookupTbl
        (updateTbl s.orders oid { order with email := some e1 }) oid =
        some { order with email := some e1 } :=
      lookupTbl_updateTbl_self _ horder
    have hlook1 : lookupTbl
        (updateTbl s.shippings sid0 (ShippingInformation.mk c1 a1 p1 ci1 pr1))
        sid0 = some (ShippingInformation.mk c1 a1 p1 ci1 pr1) :=
      lookupTbl_updateTbl_self _ hsi0
    rw [put_shipping_update_fst env _ oid { order with email := some e1 } sid0
      (ShippingInformation.mk c1 a1 p1 ci1 pr1) e2 c2 a2 p2 ci2 pr2 horder1
      hship0 hlook1]
    rw [put_shipping_update_snd env _ oid { order with email := some e1 } sid0
      (ShippingInformation.mk c1 a1 p1 ci1 pr1) e2 c2 a2 p2 ci2 pr2 horder1
      hship0 hlook1]
    have horder2 : lookupTbl
        (updateTbl (updateTbl s.orders oid { order with email := some e1 }) oid
          { order with email := some e2 }) oid =
        some { order with email := some e2 } :=
      lookupTbl_updateTbl_self _ horder1
    refine ⟨sid0,
      { order with email := some e1 },
      { order with email := some e2 },
      horder1, hship0, horder2, hship0,
      lookupTbl_updateTbl_self _ hlook1,
      length_updateTbl _ _ _,
      fun h => Option.noConfusion h,
      fun sid1 h1 => ⟨Option.some.inj h1, length_updateTbl _ _ _⟩,
      ?_⟩
    intro v hv
    obtain ⟨o', poq', product', w', siOpt', ccOpt', txOpt', ho', hpoq'', hprod'',
      hsi'', hcc'', htx'', hw'', hveq⟩ := get_order_ok_inv hv
    obtain rfl := Option.some.inj (ho'.symm.trans horder2)
    obtain rfl := Option.some.inj (hpoq''.symm.trans hpoq)
    obtain rfl := Option.some.inj (hprod''.symm.trans hprod)
    have hsiknown : resolveOpt
        (updateTbl
          (updateTbl s.shippings sid0 (ShippingInformation.mk c1 a1 p1 ci1 pr1))
          sid0 (ShippingInformation.mk c2 a2 p2 ci2 pr2))
        order.shipping_information =
        .ok (some (ShippingInformation.mk c2 a2 p2 ci2 pr2)) := by
      rw [hship0]
      exact resolveOpt_some (lookupTbl_updateTbl_self _ hlook1)
    obtain rfl := Except.ok.inj (hsi''.symm.trans hsiknown)
    subst hveq
    exact ⟨rfl, rfl⟩

theorem C6_resubmit_shipping_witness :
    ∃ sid order1 order2,
      lookupTbl
        (put_order_shipping_information env0 storeNoShip 1 "e1" "Canada" "a1" "p1"
          "c1" "QC").1.orders 1 = some order1 ∧
      order1.shipping_information = some sid ∧
      lookupTbl
        (put_order_shipping_information env0
          (put_order_shipping_information env0 storeNoShip 1 "e1" "Canada" "a1"
            "p1" "c1" "QC").1 1 "e2" "Canada" "a2" "p2" "c2" "ON").1.orders 1 =
        some order2 ∧
      order2.shipping_information = some sid ∧
      lookupTbl
        (put_order_shipping_information env0
          (put_order_shipping_information env0 storeNoShip 1 "e1" "Canada" "a1"
            "p1" "c1" "QC").1 1 "e2" "Canada" "a2" "p2" "c2" "ON").1.shippings
        sid = some (ShippingInformation.mk "Canada" "a2" "p2" "c2" "ON") ∧
      (put_order_shipping_information env0
        (put_order_shipping_information env0 storeNoShip 1 "e1" "Canada" "a1"
          "p1" "c1" "QC").1 1 "e2" "Canada" "a2" "p2" "c2"
        "ON").1.shippings.length =
        (put_order_shipping_information env0 storeNoShip 1 "e1" "Canada" "a1"
          "p1" "c1" "QC").1.shippings.length ∧
      (ordNoShip.shipping_information = none →
        (put_order_shipping_information env0 storeNoShip 1 "e1" "Canada" "a1"
          "p1" "c1" "QC").1.shippings.length =
          storeNoShip.shippings.length + 1) ∧
      (∀ sid0, ordNoShip.shipping_information = some sid0 →
        sid = sid0 ∧
        (put_order_shipping_information env0 storeNoShip 1 "e1" "Canada" "a1"
          "p1" "c1" "QC").1.shippings.length = storeNoShip.shippings.length) ∧
      ∀ v, (put_order_shipping_information env0
          (put_order_shipping_information env0 storeNoShip 1 "e1" "Canada" "a1"
            "p1" "c1" "QC").1 1 "e2" "Canada" "a2" "p2" "c2" "ON").2 = .ok v →
        v.total_price = prodW.price * ((3 : Int) : Rat) ∧
        v.total_price_tax = some (env0.calculate_tax "ON" *
          (prodW.price * ((3 : Int) : Rat)) +
          prodW.price * ((3 : Int) : Rat)) :=
  C6_resubmit_shipping env0 storeNoShip 1 ordNoShip poq1 prodW "e1" "Canada" "a1"
    "p1" "c1" "QC" "e2" "Canada" "a2" "p2" "c2" "ON" rfl rfl rfl
    (by intro sid0 h; simp [ordNoShip, ord1] at h)

end FlaskStarter
